import Mathlib

/-!
Shallow embedding of the contact-manager program in `src/hw-08.py` and proofs
about its data model: field validators (Name, Phone, Birthday), Record phone
operations, the AddressBook mapping, the upcoming-birthday query, and the
command dispatch table.

Modelling conventions
* Python strings are sequences of Unicode code points; they are embedded as
  `List Nat` (the type `PyStr`), with `lit` converting a Lean string literal
  to its code points.  All string operations of the source (indexing, length,
  concatenation, digit tests) act on code points, exactly as in Python 3.
* Python exceptions are embedded as the error side of `Except PyErr`.
  Exception messages are carried verbatim where they matter, except that
  apostrophes occurring in CPython messages are elided from the text.
* Mutation of objects (a `Phone` value edited in place, a `Record` stored in
  the book) is embedded by explicit state passing: each operation returns the
  updated structure.
-/

deriving instance DecidableEq for Except

/-- Embedding of a Python `str`: its sequence of Unicode code points. -/
abbrev PyStr := List Nat

/-- Code points of a Lean string literal, used to write concrete Python
strings inside definitions and theorems. -/
def lit (s : String) : PyStr := s.data.map Char.toNat

/-- Embedding of the Python exceptions raised by the program.  The payload is
the exception message (`str(e)`), as a code-point sequence. -/
inductive PyErr where
  | valueError (msg : PyStr)
  | typeError (msg : PyStr)
  | attributeError (msg : PyStr)
  | indexError (msg : PyStr)
  deriving DecidableEq

/-- Characters accepted by CPython `str.isdigit`: code points whose Unicode
`Numeric_Type` is `Decimal` or `Digit`.  The full Unicode table is large; this
embedding lists ASCII `0`-`9` together with the non-ASCII digit ranges
exercised anywhere in this development (superscripts and subscripts,
Arabic-Indic, extended Arabic-Indic, Devanagari, fullwidth digits).  Every
theorem below evaluates the predicate only on ASCII characters and on the
listed ranges. -/
def pyIsDigitChar (c : Nat) : Prop :=
  (48 ≤ c ∧ c ≤ 57) ∨            -- ASCII 0-9
  c = 0xB9 ∨ c = 0xB2 ∨ c = 0xB3 ∨   -- superscript one, two, three
  c = 0x2070 ∨ (0x2074 ≤ c ∧ c ≤ 0x2079) ∨  -- other superscripts
  (0x2080 ≤ c ∧ c ≤ 0x2089) ∨    -- subscripts
  (0x660 ≤ c ∧ c ≤ 0x669) ∨      -- Arabic-Indic
  (0x6F0 ≤ c ∧ c ≤ 0x6F9) ∨      -- extended Arabic-Indic
  (0x966 ≤ c ∧ c ≤ 0x96F) ∨      -- Devanagari
  (0xFF10 ≤ c ∧ c ≤ 0xFF19)      -- fullwidth

instance (c : Nat) : Decidable (pyIsDigitChar c) := by
  unfold pyIsDigitChar; infer_instance

/-- Embedding of Python `value.isdigit()`: true iff the string is nonempty and
every character is a digit character. -/
def pyIsdigit (v : PyStr) : Prop := v ≠ [] ∧ ∀ c ∈ v, pyIsDigitChar c

instance (v : PyStr) : Decidable (pyIsdigit v) := by
  unfold pyIsdigit; infer_instance

/-- Characters stripped by Python `str.strip()` with no argument: whitespace.
Only the ASCII whitespace characters are listed; no theorem below applies the
predicate to other code points. -/
def pyIsSpace (c : Nat) : Prop := c = 32 ∨ c = 9 ∨ c = 10 ∨ c = 13 ∨ c = 11 ∨ c = 12

instance (c : Nat) : Decidable (pyIsSpace c) := by
  unfold pyIsSpace; infer_instance

/-- Source class `Name` (line 14): a contact name.  The raw, untrimmed value
is stored. -/
structure Name where
  value : PyStr
  deriving DecidableEq

/-- Source `Name.__init__` (lines 15-18): `if not value.strip(): raise
ValueError(...)`.  `not value.strip()` holds exactly when the stripped string
is empty, i.e. when every character of `value` is whitespace. -/
def nameNew (value : PyStr) : Except PyErr Name :=
  if ∀ c ∈ value, pyIsSpace c then
    .error (.valueError (lit "Name cannot be empty."))
  else
    .ok ⟨value⟩

/-- Source class `Phone` (line 21): a phone number, stored verbatim. -/
structure Phone where
  value : PyStr
  deriving DecidableEq

/-- Source `Phone.__init__` (lines 22-25): `if not value.isdigit() or
len(value) != 10: raise ValueError("Phone number must be 10 digits.")`. -/
def phoneNew (value : PyStr) : Except PyErr Phone :=
  if ¬ pyIsdigit value ∨ value.length ≠ 10 then
    .error (.valueError (lit "Phone number must be 10 digits."))
  else
    .ok ⟨value⟩

/-- Embedding of `datetime.date`: the value of `datetime.now().date()`. -/
structure PyDate where
  year : Nat
  month : Nat
  day : Nat
  deriving DecidableEq

/-- Embedding of `datetime.datetime`, the type produced by
`datetime.strptime`.  The time-of-day fields are all zero for every value the
program constructs, but the type is kept distinct from `PyDate` because the
distinction decides how CPython comparison and subtraction behave. -/
structure PyDateTime where
  year : Nat
  month : Nat
  day : Nat
  hour : Nat
  minute : Nat
  second : Nat
  deriving DecidableEq

/-- Gregorian leap-year test, as in CPython `datetime`. -/
def isLeap (y : Nat) : Bool := y % 4 == 0 && (y % 100 != 0 || y % 400 == 0)

/-- Days in a month, as in CPython `datetime` (months 1-12). -/
def daysInMonth (y m : Nat) : Nat :=
  if m = 2 then (if isLeap y then 29 else 28)
  else if m = 4 ∨ m = 6 ∨ m = 9 ∨ m = 11 then 30
  else 31

/-- Validity check of the CPython `datetime` constructor: MINYEAR (1) up to
MAXYEAR (9999), month 1-12, day within the month. -/
def validYMD (y m d : Nat) : Prop :=
  1 ≤ y ∧ y ≤ 9999 ∧ 1 ≤ m ∧ m ≤ 12 ∧ 1 ≤ d ∧ d ≤ daysInMonth y m

instance (y m d : Nat) : Decidable (validYMD y m d) := by
  unfold validYMD; infer_instance

/-- Numeric value of an ASCII digit code point, as produced by `int()` on a
matched group. -/
def dv (c : Nat) : Nat := c - 48

/-- CPython `strptime` directive `%d`, whose regex is
`3[01]|[12][0-9]|0[1-9]|[1-9]` (with the second character of `[12]\d` an ASCII
digit here; the regex class also covers non-ASCII decimal digits, which no
theorem below feeds to the parser).  Alternatives are tried in order; a
committed two-character match never needs regex backtracking because the
following pattern character is the literal dot, which no digit matches. -/
def matchDay : PyStr → Option (Nat × PyStr)
  | c1 :: c2 :: rest =>
    if c1 = 51 ∧ (c2 = 48 ∨ c2 = 49) then some (30 + dv c2, rest)
    else if (c1 = 49 ∨ c1 = 50) ∧ (48 ≤ c2 ∧ c2 ≤ 57) then some (10 * dv c1 + dv c2, rest)
    else if c1 = 48 ∧ (49 ≤ c2 ∧ c2 ≤ 57) then some (dv c2, rest)
    else if 49 ≤ c1 ∧ c1 ≤ 57 then some (dv c1, c2 :: rest)
    else none
  | [c1] => if 49 ≤ c1 ∧ c1 ≤ 57 then some (dv c1, []) else none
  | [] => none

/-- CPython `strptime` directive `%m`, regex `1[0-2]|0[1-9]|[1-9]`. -/
def matchMonth : PyStr → Option (Nat × PyStr)
  | c1 :: c2 :: rest =>
    if c1 = 49 ∧ (48 ≤ c2 ∧ c2 ≤ 50) then some (10 + dv c2, rest)
    else if c1 = 48 ∧ (49 ≤ c2 ∧ c2 ≤ 57) then some (dv c2, rest)
    else if 49 ≤ c1 ∧ c1 ≤ 57 then some (dv c1, c2 :: rest)
    else none
  | [c1] => if 49 ≤ c1 ∧ c1 ≤ 57 then some (dv c1, []) else none
  | [] => none

/-- CPython `strptime` directive `%Y`, regex `\d\d\d\d`: exactly four digits. -/
def matchYear4 : PyStr → Option (Nat × PyStr)
  | a :: b :: c :: e :: rest =>
    if (48 ≤ a ∧ a ≤ 57) ∧ (48 ≤ b ∧ b ≤ 57) ∧ (48 ≤ c ∧ c ≤ 57) ∧ (48 ≤ e ∧ e ≤ 57) then
      some (dv a * 1000 + dv b * 100 + dv c * 10 + dv e, rest)
    else none
  | _ => none

/-- Literal `.` of the format string `%d.%m.%Y` (code point 46). -/
def expectDot : PyStr → Option PyStr
  | c :: rest => if c = 46 then some rest else none
  | [] => none

/-- Regex phase of `datetime.strptime(value, "%d.%m.%Y")`: day, dot, month,
dot, four-digit year, and the whole string must be consumed (strptime raises
on unconverted trailing data). -/
def parseDMY (s : PyStr) : Option (Nat × Nat × Nat) :=
  (matchDay s).bind fun dr =>
  (expectDot dr.2).bind fun r1 =>
  (matchMonth r1).bind fun mr =>
  (expectDot mr.2).bind fun r2 =>
  (matchYear4 r2).bind fun yr =>
  if yr.2 = [] then some (dr.1, mr.1, yr.1) else none

/-- Source `datetime.strptime(value, "%d.%m.%Y")` (line 31): regex match
followed by the `datetime` constructor, which validates the calendar date
(this is where `31.02.anything`, or a year of `0000`, is rejected).  The
resulting datetime has time 00:00:00. -/
def strptimeDMY (s : PyStr) : Except PyErr PyDateTime :=
  (parseDMY s).elim
    (.error (.valueError (lit "time data does not match format %d.%m.%Y")))
    (fun t =>
      if validYMD t.2.2 t.2.1 t.1 then .ok ⟨t.2.2, t.2.1, t.1, 0, 0, 0⟩
      else .error (.valueError (lit "day is out of range for month")))

/-- Two-digit zero-padded decimal rendering, as `strftime` `%d` and `%m`
produce for values below 100. -/
def pad2 (n : Nat) : PyStr := [48 + n / 10, 48 + n % 10]

/-- Four-digit zero-padded decimal rendering of a year at most 9999.  CPython
delegates `%Y` to the platform: years 1000-9999 render as their four digits
everywhere; below 1000 glibc omits the leading zeros while other platforms
keep them.  The zero-padded convention is modelled. -/
def pad4 (n : Nat) : PyStr :=
  [48 + n / 1000, 48 + n / 100 % 10, 48 + n / 10 % 10, 48 + n % 10]

/-- Source `strftime("%d.%m.%Y")` (lines 36 and 109) on a datetime. -/
def strftimeDMY (dt : PyDateTime) : PyStr :=
  pad2 dt.day ++ [46] ++ pad2 dt.month ++ [46] ++ pad4 dt.year

/-- Source class `Birthday` (line 28): stores the parsed datetime in `value`. -/
structure Birthday where
  value : PyDateTime
  deriving DecidableEq

/-- Source `Birthday.__init__` (lines 29-33): parse with strptime, converting
any parse failure into `ValueError("Invalid date format. Use DD.MM.YYYY")`. -/
def birthdayNew (v : PyStr) : Except PyErr Birthday :=
  match strptimeDMY v with
  | .ok dt => .ok ⟨dt⟩
  | .error _ => .error (.valueError (lit "Invalid date format. Use DD.MM.YYYY"))

/-- Source `Birthday.__str__` (lines 35-36). -/
def birthdayStr (b : Birthday) : PyStr := strftimeDMY b.value

/-- Source class `Record` (lines 39-43): one Name, an ordered phone list, an
optional birthday. -/
structure Record where
  name : Name
  phones : List Phone
  birthday : Option Birthday
  deriving DecidableEq

/-- Source `Record.__init__` (lines 40-43): `Record(name)` validates the name
and starts with no phones and no birthday. -/
def recordNew (n : PyStr) : Except PyErr Record :=
  (nameNew n).map fun nm => ⟨nm, [], none⟩

/-- Source `Record.add_phone` (lines 46-47): construct a `Phone` (which
validates) and append it. -/
def Record.add_phone (r : Record) (phone : PyStr) : Except PyErr Record :=
  (phoneNew phone).map fun p => { r with phones := r.phones ++ [p] }

/-- Source `Record.remove_phone` (lines 50-51): keep the phones whose value
differs from the argument. -/
def Record.remove_phone (r : Record) (phone : PyStr) : Record :=
  { r with phones := r.phones.filter fun p => p.value ≠ phone }

/-- Loop body of `Record.edit_phone` (lines 55-58): walk the list and set
`p.value = new_phone` on the first phone equal to `old_phone` — note that no
`Phone` constructor runs, so the new value is not validated.  Returns `none`
when no phone matched. -/
def editPhoneList : List Phone → PyStr → PyStr → Option (List Phone)
  | [], _, _ => none
  | p :: ps, old, new =>
    if p.value = old then some (⟨new⟩ :: ps)
    else (editPhoneList ps old new).map fun ps2 => p :: ps2

/-- Source `Record.edit_phone` (lines 54-59): replace the first matching
phone in place, or raise `ValueError("Old phone number not found.")`. -/
def Record.edit_phone (r : Record) (old new : PyStr) : Except PyErr Record :=
  match editPhoneList r.phones old new with
  | some ps => .ok { r with phones := ps }
  | none => .error (.valueError (lit "Old phone number not found."))

/-- Source `Record.find_phone` (lines 62-66): first phone with the given
value, else `None`. -/
def Record.find_phone (r : Record) (phone : PyStr) : Option Phone :=
  r.phones.find? fun p => p.value == phone

/-- Source `Record.add_birthday` (lines 69-70): validate and set/replace the
birthday. -/
def Record.add_birthday (r : Record) (v : PyStr) : Except PyErr Record :=
  (birthdayNew v).map fun b => { r with birthday := some b }

/-- Source `Record.__str__` (lines 73-76). -/
def Record.render (r : Record) : PyStr :=
  lit "Contact name: " ++ r.name.value ++ lit ", phones: " ++
  List.intercalate (lit "; ") (r.phones.map Phone.value) ++
  (match r.birthday with
   | some b => lit ", birthday: " ++ birthdayStr b
   | none => [])

/-- Source class `AddressBook` (line 79): a `UserDict` keyed by name.  The
underlying `dict` is embedded as an association list in insertion order with
unique keys: assigning to an existing key updates the entry in place,
assigning to a fresh key appends. -/
structure AddressBook where
  data : List (PyStr × Record)
  deriving DecidableEq

/-- Assignment `self.data[k] = v` of a Python dict. -/
def dictSet (l : List (PyStr × Record)) (k : PyStr) (v : Record) : List (PyStr × Record) :=
  if k ∈ l.map Prod.fst then l.map (fun e => if e.1 = k then (k, v) else e)
  else l ++ [(k, v)]

/-- Lookup `self.data.get(k, None)` of a Python dict: the entry at the key. -/
def assocFind (k : PyStr) : List (PyStr × Record) → Option Record
  | [] => none
  | e :: es => if e.1 = k then some e.2 else assocFind k es

/-- Source `AddressBook.add_record` (lines 81-82): `self.data[record.name.value]
= record` — inserts or silently overwrites. -/
def AddressBook.add_record (b : AddressBook) (r : Record) : AddressBook :=
  ⟨dictSet b.data r.name.value r⟩

/-- Source `AddressBook.find` (lines 85-86): `self.data.get(name, None)`. -/
def AddressBook.find (b : AddressBook) (n : PyStr) : Option Record :=
  assocFind n b.data

/-- Source `AddressBook.delete` (lines 89-91): delete the entry if present,
no-op otherwise. -/
def AddressBook.delete (b : AddressBook) (n : PyStr) : AddressBook :=
  ⟨b.data.filter fun e => e.1 ≠ n⟩

/-- Source `AddressBook.__str__` (lines 94-95). -/
def AddressBook.render (b : AddressBook) : PyStr :=
  List.intercalate (lit "\n") (b.data.map fun e => e.2.render)

/-- CPython `datetime.replace(year=y)` (source lines 103 and 105): rebuild the
datetime with the new year; the constructor re-validates, so a 29 February
moved to a non-leap year raises `ValueError`. -/
def datetimeReplaceYear (dt : PyDateTime) (y : Nat) : Except PyErr PyDateTime :=
  if validYMD y dt.month dt.day then
    .ok { dt with year := y }
  else
    .error (.valueError (lit "day is out of range for month"))

/-- CPython comparison of a `datetime.datetime` with a plain `datetime.date`
(source line 104, `birthday_this_year < today`): `datetime.__lt__` sees a
`date` that is not a `datetime` and raises
`TypeError: cant compare datetime.datetime to datetime.date`. -/
def ltDatetimeDate (_ : PyDateTime) (_ : PyDate) : Except PyErr Bool :=
  .error (.typeError (lit "cant compare datetime.datetime to datetime.date"))

/-- CPython subtraction `datetime - date` (source line 106): unsupported
operand types, raises `TypeError`. -/
def subDatetimeDate (_ : PyDateTime) (_ : PyDate) : Except PyErr Int :=
  .error (.typeError (lit "unsupported operand types for -: datetime.datetime and datetime.date"))

/-- One output entry of `get_upcoming_birthdays` (lines 107-110): the dict
`{"name": ..., "birthday": ...}`, embedded as a (name, rendered date) pair. -/
abbrev UpcomingEntry := PyStr × PyStr

/-- Loop of `AddressBook.get_upcoming_birthdays` (lines 101-110) over the dict
entries in insertion order.  For each record with a birthday: replace the year
with the current one (may raise), compare the datetime against the date
`today` (raises `TypeError` in CPython), on `True` replace with next year,
then test the day difference against the 0-7 window. -/
def upcomingLoop (today : PyDate) : List (PyStr × Record) → Except PyErr (List UpcomingEntry)
  | [] => .ok []
  | (_, r) :: rest =>
    match r.birthday with
    | none => upcomingLoop today rest
    | some b => do
      let bty ← datetimeReplaceYear b.value today.year
      let isBefore ← ltDatetimeDate bty today
      let bty2 ← if isBefore then datetimeReplaceYear bty (today.year + 1) else pure bty
      let diff ← subDatetimeDate bty2 today
      let tail ← upcomingLoop today rest
      if 0 ≤ diff ∧ diff ≤ 7 then
        .ok ((r.name.value, strftimeDMY bty2) :: tail)
      else
        .ok tail

/-- Source `AddressBook.get_upcoming_birthdays` (lines 98-111).  In the source
`today` is read from the system clock (`datetime.now().date()`); it is passed
here as a parameter. -/
def AddressBook.get_upcoming_birthdays (b : AddressBook) (today : PyDate) :
    Except PyErr (List UpcomingEntry) :=
  upcomingLoop today b.data

/-- Value returned by a command handler: the Python `None` returned by the
`add` and `change` lambdas, or a string. -/
inductive PyValue where
  | pyNone
  | str (s : PyStr)
  deriving DecidableEq

/-- Python `args[i]` on a list: the element, or `IndexError` when out of
range (negative indices never occur in the source). -/
def pyIndex (l : List PyStr) (i : Nat) : Except PyErr PyStr :=
  match l.get? i with
  | some x => .ok x
  | none => .error (.indexError (lit "list index out of range"))

/-- Type of an entry of the `commands` table (lines 154-165): argument list
and address book in, response value and updated book out; errors raised
during execution appear on the `Except` error side.  The extra `PyDate`
argument stands for the system clock (`datetime.now().date()`), which only
the `birthdays` handler reads. -/
abbrev Handler := List PyStr → AddressBook → PyDate → Except PyErr (PyValue × AddressBook)

/-- Source decorator `input_error` (lines 114-120): run the handler and turn
any raised exception into its message string (`str(e)`) as the response. -/
def inputError (h : Handler) : Handler := fun args book today =>
  match h args book today with
  | .ok res => .ok res
  | .error e =>
    match e with
    | .valueError m => .ok (.str m, book)
    | .typeError m => .ok (.str m, book)
    | .attributeError m => .ok (.str m, book)
    | .indexError m => .ok (.str m, book)

/-- Dict assignment used to embed in-place mutation of a record that is
aliased inside the book (the handlers mutate the object returned by
`book.find`): the entry at the key is replaced by the updated record. -/
def bookSetRecord (b : AddressBook) (k : PyStr) (r : Record) : AddressBook :=
  ⟨b.data.map fun e => if e.1 = k then (k, r) else e⟩

/-- Handler `add_birthday` (lines 123-132), before the decorator. -/
def addBirthdayRaw : Handler := fun args book _ =>
  if args.length ≠ 2 then .error (.valueError (lit "Usage: add-birthday [name] [birthday]"))
  else do
    let name ← pyIndex args 0
    let bday ← pyIndex args 1
    match book.find name with
    | some r0 => do
      let r1 ← r0.add_birthday bday
      .ok (.str (lit "Added birthday " ++ bday ++ lit " for " ++ name),
           bookSetRecord book name r1)
    | none => .ok (.str (lit "Contact " ++ name ++ lit " not found"), book)

/-- Handler `show_birthday` (lines 135-143), before the decorator. -/
def showBirthdayRaw : Handler := fun args book _ =>
  if args.length ≠ 1 then .error (.valueError (lit "Usage: show-birthday [name]"))
  else do
    let name ← pyIndex args 0
    match book.find name with
    | some r0 =>
      match r0.birthday with
      | some b =>
        .ok (.str (name ++ lit "\x27s birthday is " ++ birthdayStr b), book)
      | none => .ok (.str (lit "Contact " ++ name ++ lit " not found or no birthday set"), book)
    | none => .ok (.str (lit "Contact " ++ name ++ lit " not found or no birthday set"), book)

/-- Handler `birthdays` (lines 146-151), before the decorator. -/
def birthdaysRaw : Handler := fun _ book today => do
  let upcoming ← book.get_upcoming_birthdays today
  if upcoming ≠ [] then
    .ok (.str (List.intercalate (lit "\n")
      (upcoming.map fun item => item.1 ++ lit ": " ++ item.2)), book)
  else
    .ok (.str (lit "No upcoming birthdays"), book)

/-- Lambda bound to `"add"` (line 155): `book.add_record(Record(args[0]))`;
`add_record` returns `None`.  Not wrapped in `input_error`. -/
def addCommand : Handler := fun args book _ => do
  let a0 ← pyIndex args 0
  let r0 ← recordNew a0
  .ok (.pyNone, book.add_record r0)

/-- Lambda bound to `"change"` (line 156):
`book.find(args[0]).edit_phone(args[1], args[2])`.  Python evaluates the
callee first: when `find` returns `None`, the attribute access raises
`AttributeError` before `args[1]` is read.  Not wrapped in `input_error`. -/
def changeCommand : Handler := fun args book _ => do
  let a0 ← pyIndex args 0
  match book.find a0 with
  | none => .error (.attributeError (lit "NoneType object has no attribute edit_phone"))
  | some r0 => do
    let a1 ← pyIndex args 1
    let a2 ← pyIndex args 2
    let r1 ← r0.edit_phone a1 a2
    .ok (.pyNone, bookSetRecord book a0 r1)

/-- Lambda bound to `"phone"` (line 157): `str(book.find(args[0]))` — note
`str(None)` is the string `None`.  Not wrapped in `input_error`. -/
def phoneCommand : Handler := fun args book _ => do
  let a0 ← pyIndex args 0
  match book.find a0 with
  | some r0 => .ok (.str r0.render, book)
  | none => .ok (.str (lit "None"), book)

/-- Lambda bound to `"all"` (line 158): `str(book)`. -/
def allCommand : Handler := fun _ book _ => .ok (.str (AddressBook.render book), book)

/-- Constant-response lambdas (lines 162-164). -/
def fixedCommand (s : String) : Handler := fun _ book _ => .ok (.str (lit s), book)

/-- Source `commands` table (lines 154-165).  Only the three birthday
handlers carry the `input_error` decorator; the lambdas are bare. -/
def commands : List (String × Handler) :=
  [("add", addCommand),
   ("change", changeCommand),
   ("phone", phoneCommand),
   ("all", allCommand),
   ("add-birthday", inputError addBirthdayRaw),
   ("show-birthday", inputError showBirthdayRaw),
   ("birthdays", inputError birthdaysRaw),
   ("hello", fixedCommand "Hello! How can I assist you?"),
   ("close", fixedCommand "Goodbye!"),
   ("exit", fixedCommand "Goodbye!")]

/-- Table lookup of `handle_command`. -/
def findHandler (c : String) : List (String × Handler) → Option Handler
  | [] => none
  | e :: es => if e.1 = c then some e.2 else findHandler c es

/-- Source `handle_command` (lines 175-178): dispatch through the table, or
answer `Unknown command`.  Exceptions raised by an unwrapped handler escape
(and crash the interactive loop in `main`, which has no handler of its
own). -/
def handle_command (c : String) (args : List PyStr) (book : AddressBook) (today : PyDate) :
    Except PyErr (PyValue × AddressBook) :=
  match findHandler c commands with
  | some h => h args book today
  | none => .ok (.str (lit "Unknown command"), book)

def aliceRecord : Record := ⟨⟨lit "Alice"⟩, [], some ⟨⟨1990, 6, 12, 0, 0, 0⟩⟩⟩

def aliceBook : AddressBook := ⟨[(lit "Alice", aliceRecord)]⟩

def bobBook : AddressBook := ⟨[(lit "Bob", ⟨⟨lit "Bob"⟩, [], some ⟨⟨1990, 6, 5, 0, 0, 0⟩⟩⟩)]⟩

def zeroPhoneRecord : Record := ⟨⟨lit "Dana"⟩, [⟨lit "0000000000"⟩], none⟩

def eveRecord1 : Record := ⟨⟨lit "Eve"⟩, [⟨lit "0000000000"⟩], none⟩

def eveRecord2 : Record := ⟨⟨lit "Eve"⟩, [⟨lit "1111111111"⟩], none⟩

/-- Invariant of the spec: every stored Record is keyed by its own name. -/
def bookInv (b : AddressBook) : Prop := ∀ e ∈ b.data, e.2.name.value = e.1

instance (b : AddressBook) : Decidable (bookInv b) := by
  unfold bookInv; infer_instance

def carlRecord : Record := ⟨⟨lit "Carl"⟩, [⟨lit "0123456789"⟩, ⟨lit "0000000000"⟩], none⟩

theorem matchDay_pad2 (d : Nat) (rest : PyStr) (h1 : 1 ≤ d) (h2 : d ≤ 31) :
    matchDay (pad2 d ++ rest) = some (d, rest) := by
  interval_cases d <;> simp [pad2, matchDay, dv]

theorem matchMonth_pad2 (m : Nat) (rest : PyStr) (h1 : 1 ≤ m) (h2 : m ≤ 12) :
    matchMonth (pad2 m ++ rest) = some (m, rest) := by
  interval_cases m <;> simp [pad2, matchMonth, dv]

theorem matchYear4_pad4 (y : Nat) (rest : PyStr) (hy : y ≤ 9999) :
    matchYear4 (pad4 y ++ rest) = some (y, rest) := by
  simp only [pad4, List.cons_append, List.nil_append, matchYear4]
  rw [if_pos]
  · simp only [dv, Option.some.injEq, Prod.mk.injEq]
    exact ⟨by omega, trivial⟩
  · refine ⟨⟨?_, ?_⟩, ⟨?_, ?_⟩, ⟨?_, ?_⟩, ⟨?_, ?_⟩⟩ <;> omega

theorem optBind_some {α β : Type} (a : α) (f : α → Option β) : (some a).bind f = f a := rfl

theorem expectDot_cons (r : PyStr) : expectDot (46 :: r) = some r := rfl

theorem daysInMonth_le_31 (y m : Nat) : daysInMonth y m ≤ 31 := by
  unfold daysInMonth
  split
  · split <;> omega
  · split <;> omega

theorem matchYear4_pad4_nil (y : Nat) (hy : y ≤ 9999) : matchYear4 (pad4 y) = some (y, []) := by
  have h := matchYear4_pad4 y [] hy
  simpa using h

theorem parseDMY_strftime (y m d : Nat) (h1 : 1 ≤ d) (h2 : d ≤ 31) (h3 : 1 ≤ m)
    (h4 : m ≤ 12) (h5 : y ≤ 9999) :
    parseDMY (strftimeDMY ⟨y, m, d, 0, 0, 0⟩) = some (d, m, y) := by
  have e1 : strftimeDMY ⟨y, m, d, 0, 0, 0⟩
      = pad2 d ++ (46 :: (pad2 m ++ (46 :: pad4 y))) := by
    simp [strftimeDMY]
  unfold parseDMY
  rw [e1, matchDay_pad2 d _ h1 h2, optBind_some, expectDot_cons, optBind_some,
    matchMonth_pad2 m _ h3 h4, optBind_some, expectDot_cons, optBind_some,
    matchYear4_pad4_nil y h5, optBind_some]
  rfl

theorem strptimeDMY_strftime (y m d : Nat) (h : validYMD y m d) :
    strptimeDMY (strftimeDMY ⟨y, m, d, 0, 0, 0⟩) = .ok ⟨y, m, d, 0, 0, 0⟩ := by
  have hd31 : d ≤ 31 := h.2.2.2.2.2.trans (daysInMonth_le_31 y m)
  unfold strptimeDMY
  rw [parseDMY_strftime y m d h.2.2.2.2.1 hd31 h.2.2.1 h.2.2.2.1 h.2.1]
  dsimp only [Option.elim]
  rw [if_pos h]

/-- C6: for every valid calendar date rendered in the zero-padded form
DD.MM.YYYY, constructing a Birthday from that string succeeds and rendering
it back produces the identical string. -/
theorem birthday_roundtrip (y m d : Nat) (h : validYMD y m d) :
    birthdayNew (strftimeDMY ⟨y, m, d, 0, 0, 0⟩) = .ok ⟨⟨y, m, d, 0, 0, 0⟩⟩ ∧
    birthdayStr ⟨⟨y, m, d, 0, 0, 0⟩⟩ = strftimeDMY ⟨y, m, d, 0, 0, 0⟩ := by
  constructor
  · unfold birthdayNew
    rw [strptimeDMY_strftime y m d h]
  · rfl

/-- Witness for C6 at the date 12.06.1990. -/
theorem birthday_roundtrip_witness :
    birthdayNew (strftimeDMY ⟨1990, 6, 12, 0, 0, 0⟩) = .ok ⟨⟨1990, 6, 12, 0, 0, 0⟩⟩ ∧
    birthdayStr ⟨⟨1990, 6, 12, 0, 0, 0⟩⟩ = strftimeDMY ⟨1990, 6, 12, 0, 0, 0⟩ :=
  birthday_roundtrip 1990 6 12 (by decide)

/-- C10: the non-zero-padded string 5.6.1990 is accepted by the Birthday
constructor (strptime %d and %m also match single digits) and the stored
value renders back as the zero-padded 05.06.1990, a different string — so
Birthday parsing accepts strictly more strings than it ever renders. -/
theorem birthday_accepts_unpadded :
    birthdayNew (lit "5.6.1990") = .ok ⟨⟨1990, 6, 5, 0, 0, 0⟩⟩ ∧
    birthdayStr ⟨⟨1990, 6, 5, 0, 0, 0⟩⟩ = lit "05.06.1990" ∧
    lit "5.6.1990" ≠ lit "05.06.1990" := by decide

/-- C1: with today = 10.06.2024 and the single contact Alice with birthday
12.06.1990 (a birthday the claim says is reported with computed date
12.06.2024), `get_upcoming_birthdays` does not return a list at all: line 104
compares the `datetime` produced by strptime/replace against the `date` from
`datetime.now().date()`, which raises TypeError in CPython. -/
theorem getUpcomingBirthdays_raises_on_claimed_inclusion :
    birthdayNew (lit "12.06.1990") = .ok ⟨⟨1990, 6, 12, 0, 0, 0⟩⟩ ∧
    aliceBook.get_upcoming_birthdays ⟨2024, 6, 10⟩ =
      .error (.typeError (lit "cant compare datetime.datetime to datetime.date")) := by
  decide

/-- C2: with today = 10.06.2024 and the single contact Bob with birthday
05.06.1990, the claimed rollover to 05.06.2025 and exclusion never happen:
the datetime-versus-date comparison on line 104 raises TypeError before the
rollover branch can run. -/
theorem getUpcomingBirthdays_raises_on_claimed_rollover :
    birthdayNew (lit "05.06.1990") = .ok ⟨⟨1990, 6, 5, 0, 0, 0⟩⟩ ∧
    bobBook.get_upcoming_birthdays ⟨2024, 6, 10⟩ =
      .error (.typeError (lit "cant compare datetime.datetime to datetime.date")) := by
  decide

/-- C3: the `change` command handler is not wrapped in `input_error`, so
invoking it with a nonexistent contact name makes the `AttributeError` from
`None.edit_phone` escape `handle_command` (and crash the interactive loop)
instead of being converted into a response string. -/
theorem handle_command_change_lets_error_escape :
    handle_command "change" [lit "Ghost", lit "0000000000", lit "1111111111"] ⟨[]⟩ ⟨2024, 6, 10⟩ =
      .error (.attributeError (lit "NoneType object has no attribute edit_phone")) := by
  decide

theorem editPhoneList_not_found (l : List Phone) (old new : PyStr)
    (h : old ∉ l.map Phone.value) : editPhoneList l old new = none := by
  induction l with
  | nil => rfl
  | cons p ps ih =>
    simp only [List.map_cons, List.mem_cons, not_or] at h
    simp only [editPhoneList]
    rw [if_neg (fun hc => h.1 hc.symm), ih h.2]
    rfl

theorem editPhoneList_found (l1 l2 : List Phone) (p : Phone) (old new : PyStr)
    (hp : p.value = old) (hl1 : old ∉ l1.map Phone.value) :
    editPhoneList (l1 ++ p :: l2) old new = some (l1 ++ ⟨new⟩ :: l2) := by
  induction l1 with
  | nil => simp [editPhoneList, hp]
  | cons q qs ih =>
    simp only [List.map_cons, List.mem_cons, not_or] at hl1
    simp only [List.cons_append, editPhoneList, List.append_eq]
    rw [if_neg (fun hc => hl1.1 hc.symm), ih hl1.2]
    rfl

/-- C4 (amended): edit_phone replaces the value of the first phone equal to
old in place with new taken verbatim — no validation of new runs — and fails
with ValueError (the NotFoundError of the spec) exactly when old is not
present; consequently a second call with the already-replaced old value
fails. -/
theorem edit_phone_spec (r : Record) (old new : PyStr) :
    (old ∉ r.phones.map Phone.value →
      r.edit_phone old new = .error (.valueError (lit "Old phone number not found."))) ∧
    (∀ l1 l2 p, r.phones = l1 ++ p :: l2 → p.value = old → old ∉ l1.map Phone.value →
      r.edit_phone old new = .ok { r with phones := l1 ++ ⟨new⟩ :: l2 }) ∧
    (∀ l1 l2 p, r.phones = l1 ++ p :: l2 → p.value = old → old ∉ l1.map Phone.value →
      old ∉ l2.map Phone.value → new ≠ old →
      ({ r with phones := l1 ++ ⟨new⟩ :: l2 } : Record).edit_phone old new =
        .error (.valueError (lit "Old phone number not found."))) := by
  refine ⟨?_, ?_, ?_⟩
  · intro h
    unfold Record.edit_phone
    rw [editPhoneList_not_found r.phones old new h]
  · intro l1 l2 p h1 h2 h3
    unfold Record.edit_phone
    rw [h1, editPhoneList_found l1 l2 p old new h2 h3]
  · intro l1 l2 p h1 h2 h3 h4 h5
    have hnot : old ∉ (l1 ++ (⟨new⟩ : Phone) :: l2).map Phone.value := by
      simp only [List.map_append, List.map_cons, List.mem_append, List.mem_cons, not_or]
      exact ⟨by simpa using h3, fun he => h5 he.symm, by simpa using h4⟩
    unfold Record.edit_phone
    dsimp only
    rw [editPhoneList_not_found _ old new hnot]

/-- C4 counterexample: on a record holding 0000000000, editing it to the
malformed value bad succeeds and stores bad verbatim, although the code
itself classifies bad as an invalid phone — refuting the claim that a
malformed new raises ValidationError and leaves the record unchanged. -/
theorem edit_phone_accepts_malformed_new :
    zeroPhoneRecord.edit_phone (lit "0000000000") (lit "bad") =
      .ok ⟨⟨lit "Dana"⟩, [⟨lit "bad"⟩], none⟩ ∧
    phoneNew (lit "bad") = .error (.valueError (lit "Phone number must be 10 digits.")) := by
  decide

/-- Witness for C4 at the spec example 0000000000 to 1111111111. -/
theorem edit_phone_spec_witness :
    zeroPhoneRecord.edit_phone (lit "0000000000") (lit "1111111111") =
      .ok ⟨⟨lit "Dana"⟩, [⟨lit "1111111111"⟩], none⟩ :=
  (edit_phone_spec zeroPhoneRecord (lit "0000000000") (lit "1111111111")).2.1
    [] [] ⟨lit "0000000000"⟩ rfl rfl (by decide)

/-- C5 (amended): Phone(value) succeeds, storing the string verbatim, exactly
when value has length 10 and every character is a digit in the sense of
Python str.isdigit — a strict superset of the ASCII decimal digits — and
raises ValueError on every other string. -/
theorem phoneNew_spec (v : PyStr) :
    (phoneNew v = .ok ⟨v⟩ ↔ v.length = 10 ∧ ∀ c ∈ v, pyIsDigitChar c) ∧
    (¬ (v.length = 10 ∧ ∀ c ∈ v, pyIsDigitChar c) →
      phoneNew v = .error (.valueError (lit "Phone number must be 10 digits."))) := by
  have hiff : (¬ pyIsdigit v ∨ v.length ≠ 10) ↔
      ¬ (v.length = 10 ∧ ∀ c ∈ v, pyIsDigitChar c) := by
    unfold pyIsdigit
    constructor
    · rintro (h | h) ⟨h1, h2⟩
      · exact h ⟨by intro he; rw [he] at h1; simp at h1, h2⟩
      · exact h h1
    · intro h
      by_cases hl : v.length = 10
      · exact Or.inl fun hx => h ⟨hl, hx.2⟩
      · exact Or.inr hl
  constructor
  · constructor
    · intro h
      by_contra hc
      unfold phoneNew at h
      rw [if_pos (hiff.mpr hc)] at h
      exact Except.noConfusion h
    · intro hc
      unfold phoneNew
      rw [if_neg (fun hx => (hiff.mp hx) hc)]
  · intro hc
    unfold phoneNew
    rw [if_pos (hiff.mpr hc)]

/-- Witness for C5 on a valid ASCII 10-digit string. -/
theorem phoneNew_spec_witness :
    phoneNew (lit "0123456789") = .ok ⟨lit "0123456789"⟩ :=
  (phoneNew_spec (lit "0123456789")).1.mpr (by decide)

/-- C5 counterexample: a string of ten superscript-two characters is accepted
by the Phone constructor although none of its characters is an ASCII decimal
digit — refuting the claim that construction succeeds only on ASCII digit
strings and fails on strings containing non-ASCII digit characters. -/
theorem phoneNew_accepts_non_ascii_digits :
    phoneNew (lit "²²²²²²²²²²") = .ok ⟨lit "²²²²²²²²²²"⟩ ∧
    ∀ c ∈ lit "²²²²²²²²²²", ¬ (48 ≤ c ∧ c ≤ 57) := by
  decide

theorem assocFind_map_set (l : List (PyStr × Record)) (k : PyStr) (v : Record)
    (hmem : k ∈ l.map Prod.fst) :
    assocFind k (l.map fun e => if e.1 = k then (k, v) else e) = some v := by
  induction l with
  | nil => simp at hmem
  | cons e es ih =>
    by_cases he : e.1 = k
    · simp [List.map_cons, if_pos he, assocFind]
    · have : k ∈ es.map Prod.fst := by
        rcases List.mem_cons.mp hmem with h1 | h1
        · exact absurd h1.symm he
        · exact h1
      simp only [List.map_cons, if_neg he, assocFind, if_neg he, ih this]

theorem assocFind_append_new (l : List (PyStr × Record)) (k : PyStr) (v : Record)
    (hmem : k ∉ l.map Prod.fst) :
    assocFind k (l ++ [(k, v)]) = some v := by
  induction l with
  | nil => simp [assocFind]
  | cons e es ih =>
    simp only [List.map_cons, List.mem_cons, not_or] at hmem
    simp only [List.cons_append, assocFind, List.append_eq]
    rw [if_neg (fun hc => hmem.1 hc.symm), ih hmem.2]

theorem dictSet_find (l : List (PyStr × Record)) (k : PyStr) (v : Record) :
    assocFind k (dictSet l k v) = some v := by
  unfold dictSet
  split
  · exact assocFind_map_set l k v (by assumption)
  · exact assocFind_append_new l k v (by assumption)

theorem dictSet_mem_key (l : List (PyStr × Record)) (k : PyStr) (v w : Record)
    (hw : (k, w) ∈ dictSet l k v) : w = v := by
  unfold dictSet at hw
  split at hw
  · rcases List.mem_map.mp hw with ⟨e, _, heq⟩
    split at heq
    · exact ((Prod.mk.injEq _ _ _ _).mp heq).2.symm
    · rename_i hne
      exact absurd (congrArg Prod.fst heq) hne
  · rename_i hmem
    rcases List.mem_append.mp hw with h1 | h1
    · exact absurd (List.mem_map_of_mem Prod.fst h1) hmem
    · simpa using ((Prod.mk.injEq _ _ _ _).mp (List.mem_singleton.mp h1)).2

/-- C7: add_record keys the entry by the name of the record and silently
overwrites: after adding two records with the same name, lookup under that
name yields the second record and every entry stored under that name is the
second record, so the phones of the first are no longer reachable there. -/
theorem add_record_overwrites (b : AddressBook) (r1 r2 : Record)
    (_h : r1.name.value = r2.name.value) :
    ((b.add_record r1).add_record r2).find r2.name.value = some r2 ∧
    ∀ w : Record, (r2.name.value, w) ∈ ((b.add_record r1).add_record r2).data → w = r2 := by
  constructor
  · exact dictSet_find _ _ _
  · intro w hw
    exact dictSet_mem_key _ _ _ _ hw

/-- Witness for C7: adding two records named Eve to the empty book leaves the
second one under the key. -/
theorem add_record_overwrites_witness :
    ((AddressBook.add_record (AddressBook.add_record ⟨[]⟩ eveRecord1) eveRecord2).find
      (lit "Eve")) = some eveRecord2 :=
  (add_record_overwrites ⟨[]⟩ eveRecord1 eveRecord2 rfl).1

theorem assocFind_mem (l : List (PyStr × Record)) (k : PyStr) (r : Record)
    (h : assocFind k l = some r) : (k, r) ∈ l := by
  induction l with
  | nil => exact absurd h (by simp [assocFind])
  | cons e es ih =>
    unfold assocFind at h
    split at h
    · rename_i he
      injection h with h2
      exact List.mem_cons.mpr (Or.inl (by rw [← he, ← h2]))
    · exact List.mem_cons.mpr (Or.inr (ih h))

/-- C8: the key invariant — every stored Record has a name equal to its key —
is preserved by add_record and delete, and find only ever returns a record
whose name is the requested key (find and get_upcoming_birthdays do not
modify the mapping at all in this embedding, being pure observers). -/
theorem addressBook_key_invariant (b : AddressBook) (h : bookInv b) :
    (∀ r : Record, bookInv (b.add_record r)) ∧
    (∀ n : PyStr, bookInv (b.delete n)) ∧
    (∀ (n : PyStr) (r : Record), b.find n = some r → r.name.value = n) := by
  refine ⟨?_, ?_, ?_⟩
  · intro r e he
    unfold AddressBook.add_record dictSet at he
    dsimp only at he
    split at he
    · rcases List.mem_map.mp he with ⟨e0, he0, heq⟩
      by_cases h0 : e0.1 = r.name.value
      · rw [if_pos h0] at heq
        rw [← heq]
      · rw [if_neg h0] at heq
        rw [← heq]
        exact h e0 he0
    · rcases List.mem_append.mp he with h1 | h1
      · exact h e h1
      · rw [List.mem_singleton.mp h1]
  · intro n e he
    exact h e (List.mem_of_mem_filter he)
  · intro n r hf
    exact h (n, r) (assocFind_mem b.data n r hf)

/-- Witness for C8: invariant preservation on the one-record Alice book. -/
theorem addressBook_key_invariant_witness :
    aliceRecord.name.value = lit "Alice" :=
  (addressBook_key_invariant aliceBook (by decide)).2.2 (lit "Alice") aliceRecord (by decide)

/-- C9: the phone operations do not touch the name or the birthday of the
record, and remove_phone keeps the surviving phones in their original
relative order (its result is a sublist of the original phone list). -/
theorem record_phone_ops_frame (r : Record) :
    (∀ p r2, r.add_phone p = .ok r2 → r2.name = r.name ∧ r2.birthday = r.birthday) ∧
    (∀ old new r2, r.edit_phone old new = .ok r2 → r2.name = r.name ∧ r2.birthday = r.birthday) ∧
    (∀ p, (r.remove_phone p).name = r.name ∧ (r.remove_phone p).birthday = r.birthday ∧
      List.Sublist (r.remove_phone p).phones r.phones) := by
  refine ⟨?_, ?_, ?_⟩
  · intro p r2 h
    unfold Record.add_phone at h
    cases hp : phoneNew p with
    | ok ph =>
      rw [hp] at h
      injection h with h2
      rw [← h2]
      exact ⟨rfl, rfl⟩
    | error e =>
      rw [hp] at h
      exact Except.noConfusion h
  · intro old new r2 h
    unfold Record.edit_phone at h
    cases hp : editPhoneList r.phones old new with
    | some ps =>
      rw [hp] at h
      injection h with h2
      rw [← h2]
      exact ⟨rfl, rfl⟩
    | none =>
      rw [hp] at h
      exact Except.noConfusion h
  · intro p
    exact ⟨rfl, rfl, List.filter_sublist r.phones⟩

/-- Witness for C9: removing a phone from a two-phone record. -/
theorem record_phone_ops_frame_witness :
    (carlRecord.remove_phone (lit "0000000000")).name = carlRecord.name ∧
    (carlRecord.remove_phone (lit "0000000000")).birthday = carlRecord.birthday ∧
    List.Sublist (carlRecord.remove_phone (lit "0000000000")).phones carlRecord.phones :=
  (record_phone_ops_frame carlRecord).2.2 (lit "0000000000")
